import Mathlib

/-!
Shallow embedding of the Docker-AutoScaler control loop
(src/autoscaler/autoscaler.py with defaults from src/autoscaler/config.py).

Modelling conventions:
* Python floats are modelled as exact rationals (ℚ); the float literals
  1.1, 0.9, 1.5, 0.7 become 11/10, 9/10, 3/2, 7/10.
* Python ints are ℤ (replica counts) or ℕ (timestamps in seconds).
* `datetime` instants are ℕ seconds; `timedelta.seconds` is the sub-day
  component, i.e. the total delta modulo 86400 (Python normalises so the
  seconds field is always in [0, 86399]).
* `int(x)` on a non-negative value is `Int.floor`; `pyInt` keeps the Python
  truncation toward zero for completeness.
* Docker / HTTP effects are passed in as explicit inputs: whether Docker is
  available, the replica count Docker would report, whether a collection
  raised.
-/

namespace AutoScalerModel

/-- Configuration snapshot, from src/autoscaler/config.py; field defaults are
the env-var defaults in that file. -/
structure AutoscalerConfig where
  SCALE_UP_THRESHOLD : ℚ := 80
  SCALE_DOWN_THRESHOLD : ℚ := 30
  MIN_REPLICAS : ℤ := 2
  MAX_REPLICAS : ℤ := 10
  COOLDOWN_PERIOD : ℕ := 120
  POSTGRES_MAX_REPLICAS : ℤ := 3
  REDIS_SCALE_UP_MEMORY : ℚ := 80
  REDIS_MAX_REPLICAS : ℤ := 2
  CPU_SCALE_UP_THRESHOLD : ℚ := 70
  CPU_SCALE_DOWN_THRESHOLD : ℚ := 20
  MEMORY_SCALE_UP_THRESHOLD : ℚ := 80
  MEMORY_SCALE_DOWN_THRESHOLD : ℚ := 40
  RESPONSE_TIME_SCALE_UP_THRESHOLD : ℚ := 1000
  RESPONSE_TIME_SCALE_DOWN_THRESHOLD : ℚ := 200
  SCALING_ALGORITHM : String := "linear"
  PREDICTION_SAMPLES : ℕ := 10
deriving Repr, DecidableEq

/-- The config with every field at its default. -/
def defaultCfg : AutoscalerConfig := {}

/-- The metrics dict built by AutoScaler.collect_api_metrics. -/
structure ApiMetrics where
  healthy : Bool
  response_time : ℚ
  memory_usage : ℚ
  cpu_usage : ℚ
  error_rate : ℚ
deriving Repr, DecidableEq

/-- The zero-filled fallback dict collect_api_metrics returns when the whole
collection raises (autoscaler.py lines 214-222). -/
def zeroMetrics : ApiMetrics :=
  { healthy := false, response_time := 0, memory_usage := 0, cpu_usage := 0, error_rate := 0 }

/-- collect_api_metrics, autoscaler.py lines 157-222, at the granularity the
claims need: if the collection raises (the health request errors), the
zero-filled fallback is returned; otherwise the successfully built dict. -/
def collect_api_metrics (raised : Bool) (okMetrics : ApiMetrics) : ApiMetrics :=
  if raised then zeroMetrics else okMetrics

/-- statistics.mean (never called on an empty list by the code below). -/
def pymean (xs : List ℚ) : ℚ := xs.sum / xs.length

/-- Python int(x): truncation toward zero, via the computable Rat.floor. -/
def pyInt (q : ℚ) : ℤ := if 0 ≤ q then q.floor else -(-q).floor

/-- MetricsCollector.get_trend, autoscaler.py lines 54-73, as a function of the
ring contents (oldest first). values = list(...)[-5:]; recent_avg =
mean(values[-3:]); older_avg = mean(values[:-3]) if len(values) > 3 else
values[0]. -/
def get_trend (hist : List ℚ) : String :=
  if hist.length < 3 then "stable"
  else
    let values := hist.drop (hist.length - 5)
    if values.length < 3 then "stable"
    else
      let recent_avg := pymean (values.drop (values.length - 3))
      let older_avg :=
        if 3 < values.length then pymean (values.take (values.length - 3))
        else values.headD 0
      if recent_avg > older_avg * (11/10) then "increasing"
      else if recent_avg < older_avg * (9/10) then "decreasing"
      else "stable"

/-- The reference trend algorithm, written from the spec sentences behind C8:
with fewer than 3 samples return stable; otherwise W = the last min(5, n)
samples; recent = mean of the last 3 of W; older = mean of W minus its last 3
when abs W > 3, else the first element of W; increasing iff
recent > 1.1 * older, decreasing iff recent < 0.9 * older, else stable. -/
def trendSpec (hist : List ℚ) : String :=
  let n := hist.length
  if n < 3 then "stable"
  else
    let W := hist.drop (n - min 5 n)
    let recent := pymean (W.drop (W.length - 3))
    let older := if 3 < W.length then pymean (W.take (W.length - 3)) else W.headD 0
    if recent > older * (11/10) then "increasing"
    else if recent < older * (9/10) then "decreasing"
    else "stable"

/-- timedelta.seconds for a delta of `delta` whole seconds: Python normalises a
timedelta so the seconds field is the total modulo 86400, in [0, 86399]. -/
def timedelta_seconds (delta : ℤ) : ℕ := (delta % 86400).toNat

/-- MetricsCollector.can_scale, autoscaler.py lines 75-81. `last` is the
ledger entry for the service (absent = never scaled); `now` is
datetime.now() in seconds. Note the code compares `timedelta.seconds`, the
sub-day component, against COOLDOWN_PERIOD. -/
def can_scale (cfg : AutoscalerConfig) (last : Option ℕ) (now : ℕ) : Bool :=
  match last with
  | none => true
  | some t => decide (cfg.COOLDOWN_PERIOD ≤ timedelta_seconds ((now : ℤ) - (t : ℤ)))

/-- AutoScaler.get_service_replicas, autoscaler.py lines 117-128: 1 when
Docker is unavailable (monitoring-only mode); the Docker-reported count when
the lookup succeeds; 0 when the lookup raises. -/
def get_service_replicas (docker_available : Bool) (dockerReplicas : Option ℤ) : ℤ :=
  if docker_available = false then 1
  else
    match dockerReplicas with
    | some r => r
    | none => 0

/-- Outcome of AutoScaler.scale_service. `ok` is the returned bool, `updated`
records whether service.update was called, `newReplicas` the Docker replica
count afterwards, `counterInc` the number of scaling_decisions_total
increments. -/
structure ScaleResult where
  ok : Bool
  updated : Bool
  newReplicas : ℤ
  counterInc : ℕ
deriving Repr, DecidableEq

/-- AutoScaler.scale_service, autoscaler.py lines 130-155 (non-raising paths):
returns False with no effect when Docker is unavailable; returns True with no
update and no counter increment when Docker already reports the target;
otherwise updates, increments the counter, and returns True. `dockerReplicas`
is the count scale_service itself reads from Docker. -/
def scale_service (docker_available : Bool) (dockerReplicas target : ℤ) : ScaleResult :=
  if docker_available = false then
    { ok := false, updated := false, newReplicas := dockerReplicas, counterInc := 0 }
  else if dockerReplicas = target then
    { ok := true, updated := false, newReplicas := dockerReplicas, counterInc := 0 }
  else
    { ok := true, updated := true, newReplicas := target, counterInc := 1 }

/-- AutoScaler._linear_scaling_decision, autoscaler.py lines 274-300. -/
def linear_scaling_decision (cfg : AutoscalerConfig) (m : ApiMetrics) (current : ℤ) : ℤ :=
  let scale_up :=
    m.cpu_usage > cfg.CPU_SCALE_UP_THRESHOLD ∨
    m.memory_usage > cfg.MEMORY_SCALE_UP_THRESHOLD ∨
    m.response_time > cfg.RESPONSE_TIME_SCALE_UP_THRESHOLD
  let scale_down :=
    m.cpu_usage < cfg.CPU_SCALE_DOWN_THRESHOLD ∧
    m.memory_usage < cfg.MEMORY_SCALE_DOWN_THRESHOLD ∧
    m.response_time < cfg.RESPONSE_TIME_SCALE_DOWN_THRESHOLD
  if scale_up ∧ current < cfg.MAX_REPLICAS then current + 1
  else if scale_down ∧ current > cfg.MIN_REPLICAS then current - 1
  else current

/-- AutoScaler._exponential_scaling_decision, autoscaler.py lines 302-321.
The float factors 1.5 and 0.7 are the rationals 3/2 and 7/10. -/
def exponential_scaling_decision (cfg : AutoscalerConfig) (m : ApiMetrics) (current : ℤ) : ℤ :=
  let max_usage := max m.cpu_usage m.memory_usage
  let factorOpt : Option ℚ :=
    if max_usage > 90 then some 2
    else if max_usage > cfg.SCALE_UP_THRESHOLD then some (3/2)
    else if max_usage < cfg.SCALE_DOWN_THRESHOLD then some (7/10)
    else none
  match factorOpt with
  | none => current
  | some f =>
      max cfg.MIN_REPLICAS (min cfg.MAX_REPLICAS (pyInt ((current : ℚ) * f)))

/-- AutoScaler._predictive_scaling_decision, autoscaler.py lines 323-340.
`cpuHist` and `memHist` are the metric-history rings for the api cpu_usage
and api memory_usage keys. -/
def predictive_scaling_decision (cfg : AutoscalerConfig) (cpuHist memHist : List ℚ)
    (m : ApiMetrics) (current : ℤ) : ℤ :=
  let cpu_trend := get_trend cpuHist
  let memory_trend := get_trend memHist
  if (cpu_trend = "increasing" ∨ memory_trend = "increasing") ∧
     (m.cpu_usage > 60 ∨ m.memory_usage > 60) then
    min (current + 1) cfg.MAX_REPLICAS
  else if (cpu_trend = "decreasing" ∧ memory_trend = "decreasing") ∧
          (m.cpu_usage < 40 ∧ m.memory_usage < 40) then
    max (current - 1) cfg.MIN_REPLICAS
  else current

/-- AutoScaler.make_scaling_decision, autoscaler.py lines 262-272: dispatch on
the configured algorithm string, defaulting to linear. -/
def make_scaling_decision (cfg : AutoscalerConfig) (cpuHist memHist : List ℚ)
    (m : ApiMetrics) (current : ℤ) : ℤ :=
  if cfg.SCALING_ALGORITHM = "linear" then linear_scaling_decision cfg m current
  else if cfg.SCALING_ALGORITHM = "exponential" then exponential_scaling_decision cfg m current
  else if cfg.SCALING_ALGORITHM = "predictive" then
    predictive_scaling_decision cfg cpuHist memHist m current
  else linear_scaling_decision cfg m current

/-- deque(maxlen = cap).append: MetricsCollector.add_metric keeps only the
most recent `cap` values (autoscaler.py line 44). -/
def appendRing (cap : ℕ) (hist : List ℚ) (v : ℚ) : List ℚ :=
  let h := hist ++ [v]
  h.drop (h.length - cap)

/-- Outcome of one run of AutoScaler.scale_api_instances for the application
tier. `target` is the decision-engine output (equal to `current` when the
cooldown gate blocked before deciding); `scaleCalled` records whether
scale_service was invoked; `updated` whether service.update actually ran;
`newReplicas` the Docker count afterwards; `ledger` the api entry of the
cooldown ledger (last scaling instant) afterwards; `counterInc` the counter increments. -/
structure ApiTickResult where
  current : ℤ
  target : ℤ
  scaleCalled : Bool
  updated : Bool
  newReplicas : ℤ
  ledger : Option ℕ
  counterInc : ℕ
  cpuHist : List ℚ
  memHist : List ℚ
  rtHist : List ℚ
deriving Repr, DecidableEq

/-- AutoScaler.scale_api_instances, autoscaler.py lines 342-375: collect,
record into the history rings, gate on cooldown, decide, and actuate.
`raised` says whether collect_api_metrics raised internally; `readReplicas`
is what Docker reports to get_service_replicas; `dockerAtScale` is what
Docker reports when scale_service re-reads the count; `last` is the api
cooldown-ledger entry and `now` the clock of the tick in seconds (used both for
the gate and for record_scaling_action). -/
def scale_api_instances (cfg : AutoscalerConfig) (raised : Bool) (okMetrics : ApiMetrics)
    (docker_available : Bool) (readReplicas : Option ℤ) (dockerAtScale : ℤ)
    (last : Option ℕ) (cpuHist memHist rtHist : List ℚ) (now : ℕ) : ApiTickResult :=
  let metrics := collect_api_metrics raised okMetrics
  let current := get_service_replicas docker_available readReplicas
  let cpuHist2 := appendRing cfg.PREDICTION_SAMPLES cpuHist metrics.cpu_usage
  let memHist2 := appendRing cfg.PREDICTION_SAMPLES memHist metrics.memory_usage
  let rtHist2 := appendRing cfg.PREDICTION_SAMPLES rtHist metrics.response_time
  if can_scale cfg last now = false then
    { current := current, target := current, scaleCalled := false, updated := false,
      newReplicas := dockerAtScale, ledger := last, counterInc := 0,
      cpuHist := cpuHist2, memHist := memHist2, rtHist := rtHist2 }
  else
    let target := make_scaling_decision cfg cpuHist2 memHist2 metrics current
    if target ≠ current then
      let r := scale_service docker_available dockerAtScale target
      { current := current, target := target, scaleCalled := true, updated := r.updated,
        newReplicas := r.newReplicas,
        ledger := if r.ok then some now else last, counterInc := r.counterInc,
        cpuHist := cpuHist2, memHist := memHist2, rtHist := rtHist2 }
    else
      { current := current, target := target, scaleCalled := false, updated := false,
        newReplicas := dockerAtScale, ledger := last, counterInc := 0,
        cpuHist := cpuHist2, memHist := memHist2, rtHist := rtHist2 }

/-- The metrics dict built by AutoScaler.collect_postgres_metrics. -/
structure PostgresMetrics where
  connections : ℤ
  connection_utilization : ℚ
deriving Repr, DecidableEq

/-- AutoScaler.collect_postgres_metrics, autoscaler.py lines 224-241:
estimated_connections = api_replicas * 50; connection_utilization =
min(estimated_connections / 1000 * 100, 100). -/
def collect_postgres_metrics (api_replicas : ℤ) : PostgresMetrics :=
  let estimated_connections := api_replicas * 50
  { connections := estimated_connections
    connection_utilization := min ((estimated_connections : ℚ) / 1000 * 100) 100 }

/-- Outcome of one run of AutoScaler.scale_postgres_instances. -/
structure PgTickResult where
  current : ℤ
  scaleCalled : Bool
  updated : Bool
  newReplicas : ℤ
  ledger : Option ℕ
  counterInc : ℕ
deriving Repr, DecidableEq

/-- AutoScaler.scale_postgres_instances, autoscaler.py lines 377-395: scale up
by one iff connection_utilization > 80, current < POSTGRES_MAX_REPLICAS, and
the cooldown gate passes. `apiRead` and `pgRead` are the Docker-reported
counts for the API and postgres services; `pgAtScale` is what scale_service
re-reads for postgres. -/
def scale_postgres_instances (cfg : AutoscalerConfig) (docker_available : Bool)
    (apiRead pgRead : Option ℤ) (pgAtScale : ℤ) (last : Option ℕ) (now : ℕ) : PgTickResult :=
  let metrics := collect_postgres_metrics (get_service_replicas docker_available apiRead)
  let current := get_service_replicas docker_available pgRead
  if metrics.connection_utilization > 80 ∧ current < cfg.POSTGRES_MAX_REPLICAS ∧
     can_scale cfg last now = true then
    let r := scale_service docker_available pgAtScale (current + 1)
    { current := current, scaleCalled := true, updated := r.updated,
      newReplicas := r.newReplicas,
      ledger := if r.ok then some now else last, counterInc := r.counterInc }
  else
    { current := current, scaleCalled := false, updated := false,
      newReplicas := pgAtScale, ledger := last, counterInc := 0 }

/-!
Trace model for the cooldown property (C5). Each of the three per-service
pipelines in autoscaler.py has the same actuation shape: a cooldown-gate
check `can_scale` at some instant, then (if the gate passes, a scaling is
wanted, and scale_service succeeds) the actuation, then
record_scaling_action stamping the ledger with the current instant
(lines 361-370, 386-392, 406-412). A `Tick` abstracts one run of such a
pipeline for a single service: `tGate ≤ tAct ≤ tStamp` are the instants of
the gate check, the actuation, and the ledger stamp; `wants` abstracts
"decision target differs from current"; `succeeds` abstracts "scale_service
returned True".
-/
structure Tick where
  tGate : ℕ
  tAct : ℕ
  tStamp : ℕ
  wants : Bool
  succeeds : Bool
deriving Repr, DecidableEq

/-- A tick actuates iff the cooldown gate passes, a scaling is wanted, and
scale_service succeeds. -/
def tick_actuates (cfg : AutoscalerConfig) (ledger : Option ℕ) (tk : Tick) : Bool :=
  can_scale cfg ledger tk.tGate && tk.wants && tk.succeeds

/-- The instants of the successful actuations along a run of the control
loop for one service, starting from ledger state `ledger`; every actuating
tick stamps the ledger with its `tStamp` (record_scaling_action). -/
def actuation_times (cfg : AutoscalerConfig) : Option ℕ → List Tick → List ℕ
  | _, [] => []
  | ledger, tk :: rest =>
      if tick_actuates cfg ledger tk then
        tk.tAct :: actuation_times cfg (some tk.tStamp) rest
      else
        actuation_times cfg ledger rest

/-- Wall-clock sanity of a run: within each tick `tGate ≤ tAct ≤ tStamp`, the
clock never goes backwards between ticks, and `t0` lower-bounds the run. -/
def ticks_ordered : ℕ → List Tick → Bool
  | _, [] => true
  | t0, tk :: rest =>
      decide (t0 ≤ tk.tGate) && decide (tk.tGate ≤ tk.tAct) &&
      decide (tk.tAct ≤ tk.tStamp) && ticks_ordered tk.tStamp rest

/-!  Theorems.  -/

/-- The linear algorithm keeps an in-range replica count in range. -/
lemma linear_scaling_decision_bounds (cfg : AutoscalerConfig) (m : ApiMetrics) (current : ℤ)
    (h1 : cfg.MIN_REPLICAS ≤ current) (h2 : current ≤ cfg.MAX_REPLICAS) :
    cfg.MIN_REPLICAS ≤ linear_scaling_decision cfg m current ∧
      linear_scaling_decision cfg m current ≤ cfg.MAX_REPLICAS := by
  simp only [linear_scaling_decision]
  split
  · next h => have := h.2; constructor <;> omega
  · split
    · next h => have := h.2; constructor <;> omega
    · exact ⟨h1, h2⟩

/-- The exponential algorithm keeps an in-range replica count in range. -/
lemma exponential_scaling_decision_bounds (cfg : AutoscalerConfig) (m : ApiMetrics) (current : ℤ)
    (h1 : cfg.MIN_REPLICAS ≤ current) (h2 : current ≤ cfg.MAX_REPLICAS) :
    cfg.MIN_REPLICAS ≤ exponential_scaling_decision cfg m current ∧
      exponential_scaling_decision cfg m current ≤ cfg.MAX_REPLICAS := by
  simp only [exponential_scaling_decision]
  have hmm : cfg.MIN_REPLICAS ≤ cfg.MAX_REPLICAS := le_trans h1 h2
  split
  · exact ⟨h1, h2⟩
  · exact ⟨le_max_left _ _, max_le hmm (min_le_left _ _)⟩

/-- The predictive algorithm keeps an in-range replica count in range. -/
lemma predictive_scaling_decision_bounds (cfg : AutoscalerConfig) (cpuHist memHist : List ℚ)
    (m : ApiMetrics) (current : ℤ)
    (h1 : cfg.MIN_REPLICAS ≤ current) (h2 : current ≤ cfg.MAX_REPLICAS) :
    cfg.MIN_REPLICAS ≤ predictive_scaling_decision cfg cpuHist memHist m current ∧
      predictive_scaling_decision cfg cpuHist memHist m current ≤ cfg.MAX_REPLICAS := by
  simp only [predictive_scaling_decision]
  have hmm : cfg.MIN_REPLICAS ≤ cfg.MAX_REPLICAS := le_trans h1 h2
  split
  · exact ⟨le_min (by omega) hmm, min_le_right _ _⟩
  · split
    · exact ⟨le_max_right _ _, max_le (by omega) hmm⟩
    · exact ⟨h1, h2⟩

/-- C1 (amended): for every algorithm tag, every metrics snapshot and every
current replica count that itself lies in [MIN_REPLICAS, MAX_REPLICAS], the
value returned by make_scaling_decision lies in
[MIN_REPLICAS, MAX_REPLICAS]; hence any actuation computed from an in-range
current count has an in-range target. -/
theorem make_scaling_decision_in_bounds (cfg : AutoscalerConfig) (cpuHist memHist : List ℚ)
    (m : ApiMetrics) (current : ℤ)
    (h1 : cfg.MIN_REPLICAS ≤ current) (h2 : current ≤ cfg.MAX_REPLICAS) :
    cfg.MIN_REPLICAS ≤ make_scaling_decision cfg cpuHist memHist m current ∧
      make_scaling_decision cfg cpuHist memHist m current ≤ cfg.MAX_REPLICAS := by
  simp only [make_scaling_decision]
  split
  · exact linear_scaling_decision_bounds cfg m current h1 h2
  · split
    · exact exponential_scaling_decision_bounds cfg m current h1 h2
    · split
      · exact predictive_scaling_decision_bounds cfg cpuHist memHist m current h1 h2
      · exact linear_scaling_decision_bounds cfg m current h1 h2

/-- C1 witness: concrete instance of the amended bound (default config,
idle metrics, current replicas 5; the decision scales down to 4). -/
theorem make_scaling_decision_in_bounds_witness :
    defaultCfg.MIN_REPLICAS ≤ 5 ∧ (5 : ℤ) ≤ defaultCfg.MAX_REPLICAS ∧
    (defaultCfg.MIN_REPLICAS ≤ make_scaling_decision defaultCfg [] [] zeroMetrics 5 ∧
      make_scaling_decision defaultCfg [] [] zeroMetrics 5 ≤ defaultCfg.MAX_REPLICAS) :=
  ⟨by decide, by decide,
    make_scaling_decision_in_bounds defaultCfg [] [] zeroMetrics 5 (by decide) (by decide)⟩

/-- C1 counterexample: with the default config (linear algorithm, bounds
[2, 10]), idle metrics and current replicas 1 — as get_service_replicas
reports in monitoring-only mode — make_scaling_decision returns 1, which is
outside [MIN_REPLICAS, MAX_REPLICAS]: the decision functions do not clamp an
out-of-range current count. -/
theorem make_scaling_decision_escapes_bounds :
    ¬ (defaultCfg.MIN_REPLICAS ≤ make_scaling_decision defaultCfg [] [] zeroMetrics 1 ∧
        make_scaling_decision defaultCfg [] [] zeroMetrics 1 ≤ defaultCfg.MAX_REPLICAS) := by
  decide

/-- C2: when the entire collection of application-tier metrics fails (the
health request errors and collect_api_metrics returns its zero-filled
fallback), the pipeline still proceeds: with the default linear config,
current replicas 3 and no cooldown in force, the zero sample satisfies every
scale-down threshold, so the engine issues a scale-down actuation to 2 —
contradicting the documented behaviour of skipping actuation on a failed
collection. -/
theorem scale_api_instances_actuates_on_failed_collection :
    (scale_api_instances defaultCfg true ⟨true, 100, 50, 85, 0⟩ true
        (some 3) 3 none [] [] [] 0).updated = true ∧
    (scale_api_instances defaultCfg true ⟨true, 100, 50, 85, 0⟩ true
        (some 3) 3 none [] [] [] 0).target = 2 ∧
    (scale_api_instances defaultCfg true ⟨true, 100, 50, 85, 0⟩ true
        (some 3) 3 none [] [] [] 0).newReplicas = 2 := by
  decide

/-- C4: can_scale compares the sub-day seconds component of the elapsed
timedelta with COOLDOWN_PERIOD, so at an elapsed wall-clock time of exactly
one day (86400 s ≥ COOLDOWN_PERIOD = 120 s) it returns false, while the
specified predicate (elapsed ≥ CooldownPeriod) holds. -/
theorem can_scale_false_after_one_day :
    can_scale defaultCfg (some 0) 86400 = false ∧
      defaultCfg.COOLDOWN_PERIOD ≤ 86400 - 0 := by
  decide

/-- C6 counterexample: in monitoring-only mode (Docker unavailable),
scale_service returns False, not success, at the concrete input
(dockerReplicas 1, target 5). -/
theorem scale_service_monitoring_not_success :
    ¬ ((scale_service false 1 5).ok = true) := by
  decide

/-- C6 (amended): in monitoring-only mode get_service_replicas returns 1 for
every service, and scale_service performs no actuation and returns failure
(False) — so the caller never stamps the cooldown ledger nor bumps the
scaling counter. -/
theorem monitoring_mode_behaviour (dockerReplicas : Option ℤ) (r target : ℤ) :
    get_service_replicas false dockerReplicas = 1 ∧
      scale_service false r target =
        { ok := false, updated := false, newReplicas := r, counterInc := 0 } :=
  ⟨rfl, rfl⟩

/-- The mathematical floor on ℚ agrees with the computable Rat.floor. -/
lemma int_floor_eq_rat_floor (q : ℚ) : ⌊q⌋ = q.floor := by
  rw [Rat.floor_def, Rat.floor_def']

/-- C8: for every history ring, get_trend coincides with the reference trend
algorithm of the spec (window = last min(5, n) samples, recent = mean of its
last 3, older = mean of the window minus its last 3 when longer than 3 else
its first element, 1.1 / 0.9 strict comparisons, ties stable). -/
theorem get_trend_matches_reference (hist : List ℚ) :
    get_trend hist = trendSpec hist := by
  by_cases h3 : hist.length < 3
  · simp [get_trend, trendSpec, h3]
  · have hdrop : hist.length - 5 = hist.length - min 5 hist.length := by omega
    have hlen : (hist.drop (hist.length - 5)).length = min 5 hist.length := by
      rw [List.length_drop]; omega
    have hnot : ¬ (hist.drop (hist.length - 5)).length < 3 := by omega
    simp only [get_trend, trendSpec, h3, if_false, hnot, ← hdrop]

/-- C3 counterexample: under the exponential algorithm with cpu = 85,
mem = 50 (so 80 < max(cpu, mem) ≤ 90) and current = 1, the decision is 2
(clamped up to MIN_REPLICAS = 2), not 1 as the claim asserts. -/
theorem exponential_at_one_is_two :
    make_scaling_decision { defaultCfg with SCALING_ALGORITHM := "exponential" } [] []
        ⟨true, 100, 50, 85, 0⟩ 1 ≠ 1 := by
  norm_num [make_scaling_decision, exponential_scaling_decision, defaultCfg, pyInt, Rat.floor]
  rw [if_neg (by decide : ¬("exponential" = "linear"))]
  decide

/-- C3 (amended): under the exponential algorithm, whenever
ScaleUpThreshold < max(cpu, mem) ≤ 90 and the current count is non-negative,
the result is floor(current * 1.5) clamped to [MIN_REPLICAS, MAX_REPLICAS];
with the default bounds [2, 10] this gives 4 for current = 3 and 2 (not 1)
for current = 1. -/
theorem exponential_decision_formula (cfg : AutoscalerConfig) (cpuHist memHist : List ℚ)
    (m : ApiMetrics) (current : ℤ)
    (halg : cfg.SCALING_ALGORITHM = "exponential")
    (hlo : cfg.SCALE_UP_THRESHOLD < max m.cpu_usage m.memory_usage)
    (hhi : max m.cpu_usage m.memory_usage ≤ 90)
    (hcur : 0 ≤ current) :
    make_scaling_decision cfg cpuHist memHist m current =
      max cfg.MIN_REPLICAS (min cfg.MAX_REPLICAS ⌊(current : ℚ) * (3/2)⌋) := by
  have hne : cfg.SCALING_ALGORITHM ≠ "linear" := by rw [halg]; decide
  have h90 : ¬ (max m.cpu_usage m.memory_usage > 90) := not_lt.mpr hhi
  simp only [make_scaling_decision, if_neg hne, if_pos halg,
    exponential_scaling_decision, if_neg h90, if_pos hlo]
  have hq : (0 : ℚ) ≤ (current : ℚ) * (3/2) := by positivity
  rw [int_floor_eq_rat_floor]
  simp only [pyInt, if_pos hq]

/-- C3 witness: the amended formula evaluated at the default config with
cpu = 85, mem = 50 and current = 1, where it yields 2. -/
theorem exponential_decision_formula_witness :
    ({ defaultCfg with SCALING_ALGORITHM := "exponential" } : AutoscalerConfig).SCALE_UP_THRESHOLD
        < max (85 : ℚ) 50 ∧
    max (85 : ℚ) 50 ≤ 90 ∧
    make_scaling_decision { defaultCfg with SCALING_ALGORITHM := "exponential" } [] []
        ⟨true, 100, 50, 85, 0⟩ 1 =
      max defaultCfg.MIN_REPLICAS (min defaultCfg.MAX_REPLICAS ⌊(1 : ℚ) * (3/2)⌋) :=
  ⟨by decide, by decide,
    exponential_decision_formula { defaultCfg with SCALING_ALGORITHM := "exponential" } [] []
      ⟨true, 100, 50, 85, 0⟩ 1 rfl (by decide) (by decide) (by decide)⟩

/-- C7: an unrecognized algorithm tag makes make_scaling_decision return
exactly the value of the linear tag on the same inputs (and it is a total
function, so the tick cannot fail). -/
theorem unknown_algorithm_falls_back_to_linear (cfg : AutoscalerConfig)
    (cpuHist memHist : List ℚ) (m : ApiMetrics) (current : ℤ)
    (h1 : cfg.SCALING_ALGORITHM ≠ "linear")
    (h2 : cfg.SCALING_ALGORITHM ≠ "exponential")
    (h3 : cfg.SCALING_ALGORITHM ≠ "predictive") :
    make_scaling_decision cfg cpuHist memHist m current =
      make_scaling_decision { cfg with SCALING_ALGORITHM := "linear" } cpuHist memHist m current := by
  simp only [make_scaling_decision, if_neg h1, if_neg h2, if_neg h3, if_pos]
  rfl

/-- C7 witness: the fallback at the concrete unrecognized tag "adaptive"
(idle metrics, current replicas 3). -/
theorem unknown_algorithm_falls_back_to_linear_witness :
    ({ defaultCfg with SCALING_ALGORITHM := "adaptive" } : AutoscalerConfig).SCALING_ALGORITHM
        ≠ "linear" ∧
    make_scaling_decision { defaultCfg with SCALING_ALGORITHM := "adaptive" } [] []
        zeroMetrics 3 =
      make_scaling_decision
        { { defaultCfg with SCALING_ALGORITHM := "adaptive" } with SCALING_ALGORITHM := "linear" }
        [] [] zeroMetrics 3 :=
  ⟨by decide,
    unknown_algorithm_falls_back_to_linear { defaultCfg with SCALING_ALGORITHM := "adaptive" }
      [] [] zeroMetrics 3 (by decide) (by decide) (by decide)⟩

/-- C9: the synthesized database metric makes connection utilization equal
min(api_replicas * 5, 100); whenever the application-tier replica count is at
most 16 (in particular at most the default MaxReplicas of 10), the
utilization is at most 80, so the postgres pipeline never issues a scale-up:
no scale_service call, no update, no cooldown stamp, no counter increment. -/
theorem postgres_never_scales_for_small_api (apiReplicas : ℤ) (cfg : AutoscalerConfig)
    (docker_available : Bool) (apiRead pgRead : Option ℤ) (pgAtScale : ℤ)
    (last : Option ℕ) (now : ℕ)
    (hr : get_service_replicas docker_available apiRead ≤ 16) :
    (collect_postgres_metrics apiReplicas).connection_utilization =
      min (5 * (apiReplicas : ℚ)) 100 ∧
    (collect_postgres_metrics (get_service_replicas docker_available apiRead)).connection_utilization
        ≤ 80 ∧
    scale_postgres_instances cfg docker_available apiRead pgRead pgAtScale last now =
      { current := get_service_replicas docker_available pgRead, scaleCalled := false,
        updated := false, newReplicas := pgAtScale, ledger := last, counterInc := 0 } := by
  have hutil : ∀ r : ℤ,
      (collect_postgres_metrics r).connection_utilization = min (5 * (r : ℚ)) 100 := by
    intro r
    simp only [collect_postgres_metrics]
    congr 1
    push_cast
    ring
  have hr2 : (collect_postgres_metrics
      (get_service_replicas docker_available apiRead)).connection_utilization ≤ 80 := by
    rw [hutil]
    have : (5 : ℚ) * (get_service_replicas docker_available apiRead : ℚ) ≤ 80 := by
      have : ((get_service_replicas docker_available apiRead : ℤ) : ℚ) ≤ 16 := by
        exact_mod_cast hr
      linarith
    exact le_trans (min_le_left _ _) this
  refine ⟨hutil apiReplicas, hr2, ?_⟩
  simp only [scale_postgres_instances]
  rw [if_neg]
  intro hcond
  exact absurd hcond.1 (not_lt.mpr hr2)

/-- C9 witness: the api tier reporting 3 replicas (utilization 15) at the
default config, with postgres at 1 replica and no cooldown in force. -/
theorem postgres_never_scales_for_small_api_witness :
    get_service_replicas true (some 3) ≤ 16 ∧
    (collect_postgres_metrics 3).connection_utilization = min (5 * (3 : ℚ)) 100 ∧
    (collect_postgres_metrics (get_service_replicas true (some 3))).connection_utilization ≤ 80 ∧
    scale_postgres_instances defaultCfg true (some 3) (some 1) 1 none 0 =
      { current := get_service_replicas true (some 1), scaleCalled := false,
        updated := false, newReplicas := 1, ledger := none, counterInc := 0 } :=
  ⟨by decide,
    postgres_never_scales_for_small_api 3 defaultCfg true (some 3) (some 1) 1 none 0 (by decide)⟩

/-- C10: when scale_service finds Docker already reporting the requested
target it returns success with no update and no counter increment; and in the
scale_api_instances pipeline, if the cooldown gate passes, the decision
target differs from the replica count the pipeline read, but Docker already
reports the target when scale_service re-reads it, then the pipeline stamps
the cooldown ledger at the tick instant even though no replica count
changed. -/
theorem scale_service_noop_still_stamps_cooldown :
    (∀ r target : ℤ, r = target →
      scale_service true r target =
        { ok := true, updated := false, newReplicas := r, counterInc := 0 }) ∧
    (∀ (cfg : AutoscalerConfig) (raised : Bool) (okMetrics : ApiMetrics)
        (readReplicas : Option ℤ) (dockerAtScale : ℤ) (last : Option ℕ)
        (cpuHist memHist rtHist : List ℚ) (now : ℕ),
      can_scale cfg last now = true →
      make_scaling_decision cfg
          (appendRing cfg.PREDICTION_SAMPLES cpuHist (collect_api_metrics raised okMetrics).cpu_usage)
          (appendRing cfg.PREDICTION_SAMPLES memHist (collect_api_metrics raised okMetrics).memory_usage)
          (collect_api_metrics raised okMetrics) (get_service_replicas true readReplicas)
          ≠ get_service_replicas true readReplicas →
      dockerAtScale =
        make_scaling_decision cfg
          (appendRing cfg.PREDICTION_SAMPLES cpuHist (collect_api_metrics raised okMetrics).cpu_usage)
          (appendRing cfg.PREDICTION_SAMPLES memHist (collect_api_metrics raised okMetrics).memory_usage)
          (collect_api_metrics raised okMetrics) (get_service_replicas true readReplicas) →
      (scale_api_instances cfg raised okMetrics true readReplicas dockerAtScale
          last cpuHist memHist rtHist now).ledger = some now ∧
      (scale_api_instances cfg raised okMetrics true readReplicas dockerAtScale
          last cpuHist memHist rtHist now).updated = false ∧
      (scale_api_instances cfg raised okMetrics true readReplicas dockerAtScale
          last cpuHist memHist rtHist now).newReplicas = dockerAtScale ∧
      (scale_api_instances cfg raised okMetrics true readReplicas dockerAtScale
          last cpuHist memHist rtHist now).counterInc = 0) := by
  constructor
  · intro r target h
    simp [scale_service, h]
  · intro cfg raised okMetrics readReplicas dockerAtScale last cpuHist memHist rtHist now
      hgate htne hdock
    simp only [scale_api_instances]
    rw [if_neg (by simp [hgate])]
    rw [if_pos htne]
    subst hdock
    simp [scale_service]

/-- C10 witness: default linear config, pipeline reads 3 replicas, cpu 85
demands 4, Docker already reports 4 when scale_service re-reads; the ledger
is stamped at the tick instant 7 with no update. -/
theorem scale_service_noop_still_stamps_cooldown_witness :
    can_scale defaultCfg none 7 = true ∧
    ((scale_api_instances defaultCfg false ⟨true, 100, 50, 85, 0⟩ true (some 3) 4
        none [] [] [] 7).ledger = some 7 ∧
      (scale_api_instances defaultCfg false ⟨true, 100, 50, 85, 0⟩ true (some 3) 4
        none [] [] [] 7).updated = false ∧
      (scale_api_instances defaultCfg false ⟨true, 100, 50, 85, 0⟩ true (some 3) 4
        none [] [] [] 7).newReplicas = 4 ∧
      (scale_api_instances defaultCfg false ⟨true, 100, 50, 85, 0⟩ true (some 3) 4
        none [] [] [] 7).counterInc = 0) :=
  ⟨by decide,
    (scale_service_noop_still_stamps_cooldown.2 defaultCfg false ⟨true, 100, 50, 85, 0⟩
      (some 3) 4 none [] [] [] 7 (by decide) (by decide) (by decide))⟩

/-- If the cooldown gate passes for a stamped service, the sub-day seconds
component it compares is bounded by the true elapsed time, so at least
COOLDOWN_PERIOD has really elapsed. -/
lemma can_scale_true_elapsed (cfg : AutoscalerConfig) (t now : ℕ)
    (hle : t ≤ now) (h : can_scale cfg (some t) now = true) :
    t + cfg.COOLDOWN_PERIOD ≤ now := by
  simp only [can_scale, timedelta_seconds, decide_eq_true_eq] at h
  omega

/-- Along any wall-clock-ordered run, the actuation instants are separated by
at least COOLDOWN_PERIOD, and when the ledger already holds a stamp no
earlier actuation can occur within COOLDOWN_PERIOD of it. -/
lemma actuation_times_spread (cfg : AutoscalerConfig) :
    ∀ (ticks : List Tick) (t0 : ℕ) (ledger : Option ℕ),
      ticks_ordered t0 ticks = true →
      (∀ s, ledger = some s → s ≤ t0) →
      List.Chain' (fun a b => a + cfg.COOLDOWN_PERIOD ≤ b)
          (actuation_times cfg ledger ticks) ∧
        (∀ s, ledger = some s → ∀ a ∈ actuation_times cfg ledger ticks,
          s + cfg.COOLDOWN_PERIOD ≤ a) := by
  intro ticks
  induction ticks with
  | nil =>
      intro t0 ledger _ _
      simp [actuation_times]
  | cons tk rest ih =>
      intro t0 ledger hord hs
      simp only [ticks_ordered, Bool.and_eq_true, decide_eq_true_eq] at hord
      obtain ⟨⟨⟨h1, h2⟩, h3⟩, h4⟩ := hord
      simp only [actuation_times]
      by_cases hact : tick_actuates cfg ledger tk = true
      · rw [if_pos hact]
        obtain ⟨hchain, hall⟩ :=
          ih tk.tStamp (some tk.tStamp) h4 (by intro s hs'; injection hs' with h; omega)
        have hallStamp := hall tk.tStamp rfl
        constructor
        · rw [List.chain'_cons']
          refine ⟨?_, hchain⟩
          intro b hb
          have hbmem := List.mem_of_mem_head? hb
          have := hallStamp b hbmem
          omega
        · intro s hs' a ha
          have hsle := hs s hs'
          have hcs : can_scale cfg (some s) tk.tGate = true := by
            subst hs'
            simp only [tick_actuates, Bool.and_eq_true] at hact
            exact hact.1.1
          have hgap := can_scale_true_elapsed cfg s tk.tGate (le_trans hsle h1) hcs
          rcases List.mem_cons.mp ha with rfl | ha'
          · omega
          · have := hallStamp a ha'
            omega
      · rw [if_neg hact]
        exact ih tk.tStamp ledger h4 (fun s hs' => by have := hs s hs'; omega)

/-- C5: in every wall-clock-ordered run of the per-service pipeline (gate on
can_scale, actuate, stamp the ledger on success — the shape of
scale_api_instances, scale_postgres_instances and scale_redis_instances),
two consecutive successful actuations on the same service are at least
COOLDOWN_PERIOD apart. -/
theorem consecutive_actuations_respect_cooldown (cfg : AutoscalerConfig)
    (ticks : List Tick) (hord : ticks_ordered 0 ticks = true) :
    List.Chain' (fun a b => a + cfg.COOLDOWN_PERIOD ≤ b)
      (actuation_times cfg none ticks) :=
  (actuation_times_spread cfg ticks 0 none hord (by intro s hs; cases hs)).1

/-- C5 witness: a concrete two-tick run (actuations at instants 0 and 200
with the default 120 s cooldown). -/
theorem consecutive_actuations_respect_cooldown_witness :
    ticks_ordered 0
        [{ tGate := 0, tAct := 0, tStamp := 0, wants := true, succeeds := true },
         { tGate := 200, tAct := 200, tStamp := 200, wants := true, succeeds := true }] = true ∧
    List.Chain' (fun a b => a + defaultCfg.COOLDOWN_PERIOD ≤ b)
      (actuation_times defaultCfg none
        [{ tGate := 0, tAct := 0, tStamp := 0, wants := true, succeeds := true },
         { tGate := 200, tAct := 200, tStamp := 200, wants := true, succeeds := true }]) :=
  ⟨by decide,
    consecutive_actuations_respect_cooldown defaultCfg
      [{ tGate := 0, tAct := 0, tStamp := 0, wants := true, succeeds := true },
       { tGate := 200, tAct := 200, tStamp := 200, wants := true, succeeds := true }]
      (by decide)⟩

end AutoScalerModel
